import Mathlib

/-!
Shallow embedding of the Court-Data Fetcher mini dashboard backend.

The repository contains several Express server variants of one pipeline:
Validator → Case Resolver → Query Log.

* `src/unnamed/part_000` — the Live Fetch variant: a `/search` route that
  validates the three input fields, fetches the court search page, solves a
  CAPTCHA, submits the form, dispatches on the "Invalid Captcha" /
  "No Case Found" markers of the response body, parses a key/value details
  table and the latest order row, and logs the raw response.
* `src/server.js`, `src/unnamed/part_004` — exact-key Lookup variants: a
  `POST /api/case` route that builds the composite key
  `caseType-caseNumber-filingYear` with a JS template literal, looks it up in
  a fixed `MOCK_DATA` table, logs the query, and answers 200/404.
* `src/unnamed/part_003` — a category-random Lookup variant: `scrapeCaseData`
  picks a uniformly random record from `MOCK_CASES[caseType]`.

JavaScript string operations used by the code (`includes`, `trim`,
`replace` with a string pattern, template-literal rendering of `undefined`)
are embedded as executable functions on `List Char` / `String` below.
-/

/-- Character class trimmed by JavaScript `String.prototype.trim` (ASCII
whitespace and line terminators; the Unicode space classes do not occur in
the data of this repository). -/
def jsWhitespace (c : Char) : Bool :=
  c == ' ' || c == '\t' || c == '\n' || c == '\r' || c == '\x0b' || c == '\x0c'

/-- List-level trim: drop `jsWhitespace` characters from both ends. -/
def jsTrimList (l : List Char) : List Char :=
  ((l.dropWhile jsWhitespace).reverse.dropWhile jsWhitespace).reverse

/-- Embedding of JavaScript `s.trim()`. -/
def jsTrim (s : String) : String :=
  ⟨jsTrimList s.data⟩

/-- List-level substring test: does `pat` occur contiguously in the list? -/
def jsIncludesList (pat : List Char) : List Char → Bool
  | [] => pat.isEmpty
  | c :: rest => pat.isPrefixOf (c :: rest) || jsIncludesList pat rest

/-- Embedding of JavaScript `s.includes(pat)`. -/
def jsIncludes (s pat : String) : Bool :=
  jsIncludesList pat.data s.data

/-- List-level replace-first: replace the first contiguous occurrence of
`pat` by `repl`, leaving the rest untouched (JavaScript `replace` with a
string pattern replaces only the first occurrence). -/
def replaceFirstList (pat repl : List Char) : List Char → List Char
  | [] => []
  | c :: rest =>
    if pat.isPrefixOf (c :: rest) then repl ++ (c :: rest).drop pat.length
    else c :: replaceFirstList pat repl rest

/-- Embedding of JavaScript `s.replace(pat, repl)` for a string pattern. -/
def jsReplaceFirst (s pat repl : String) : String :=
  ⟨replaceFirstList pat.data repl.data s.data⟩

/-- Embedding of JavaScript `s.startsWith(pat)`. -/
def jsStartsWith (s pat : String) : Bool :=
  pat.data.isPrefixOf s.data

/-- Rendering of a possibly-`undefined` JavaScript string value inside a
template literal: `undefined` prints as the text "undefined". -/
def jsStr : Option String → String
  | some s => s
  | none => "undefined"

/-- One row of an orders table (`orders` entries of the mock records). -/
structure OrderRecord where
  date : String
  description : String
  pdfLink : String
deriving Repr, DecidableEq

/-- A case record as produced by the Resolver.  `rawResponse` is `none` for
the records of the `MOCK_CASES` table of `part_003`, whose object literals have no such
field (reading it in JS would give `undefined`). -/
structure CaseRecord where
  caseType : String
  caseNumber : String
  filingYear : String
  parties : String
  filingDate : String
  nextHearingDate : String
  orders : List OrderRecord
  rawResponse : Option String
deriving Repr, DecidableEq

/-- The request body of `POST /api/case`: each field may be absent from the
JSON body, in which case destructuring yields `undefined` (here `none`). -/
structure ReqBody where
  caseType : Option String
  caseNumber : Option String
  filingYear : Option String
deriving Repr, DecidableEq

/-- Composite lookup key, from the template literal
`${caseType}-${caseNumber}-${filingYear}` of `server.js` and `part_004`. -/
def keyOf (b : ReqBody) : String :=
  jsStr b.caseType ++ "-" ++ jsStr b.caseNumber ++ "-" ++ jsStr b.filingYear

/-- Record criminal-123-2023 of the `MOCK_DATA` table of `src/server.js`. -/
def serverCriminalRecord : CaseRecord where
  caseType := "Criminal Case"
  caseNumber := "123"
  filingYear := "2023"
  parties := "State of Delhi vs. John Doe"
  filingDate := "2023-01-15"
  nextHearingDate := "2025-09-01"
  orders := [⟨"2024-07-28", "Final order on bail application.",
    "https://placehold.co/600x400/FF0000/FFFFFF?text=Mock+Order+PDF"⟩]
  rawResponse := some "<html><body>...raw HTML content from a criminal case...</body></html>"

/-- Record civil-456-2024 of the `MOCK_DATA` table of `src/server.js`. -/
def serverCivilRecord : CaseRecord where
  caseType := "Civil Suit"
  caseNumber := "456"
  filingYear := "2024"
  parties := "Jane Doe vs. ABC Corp"
  filingDate := "2024-03-20"
  nextHearingDate := "2025-10-15"
  orders := [⟨"2024-08-01", "Case listed for final arguments.",
    "https://placehold.co/600x400/0000FF/FFFFFF?text=Mock+Order+PDF"⟩]
  rawResponse := some "<html><body>...raw HTML content from a civil suit...</body></html>"

/-- The `MOCK_DATA` object of `src/server.js` as a partial map from the
composite key. -/
def MOCK_DATA_server (key : String) : Option CaseRecord :=
  if key = "criminal-123-2023" then some serverCriminalRecord
  else if key = "civil-456-2024" then some serverCivilRecord
  else none

/-- Record criminal-123-2023 of the `MOCK_DATA` table of `src/unnamed/part_004` (it
differs from the `server.js` one only in the `rawResponse` text). -/
def p4CriminalRecord : CaseRecord where
  caseType := "Criminal Case"
  caseNumber := "123"
  filingYear := "2023"
  parties := "State of Delhi vs. John Doe"
  filingDate := "2023-01-15"
  nextHearingDate := "2025-09-01"
  orders := [⟨"2024-07-28", "Final order on bail application.",
    "https://placehold.co/600x400/FF0000/FFFFFF?text=Mock+Order+PDF"⟩]
  rawResponse := some "<html><body>...mock HTML content from a criminal case...</body></html>"

/-- Record civil-456-2024 of the `MOCK_DATA` table of `src/unnamed/part_004`. -/
def p4CivilRecord : CaseRecord where
  caseType := "Civil Suit"
  caseNumber := "456"
  filingYear := "2024"
  parties := "Jane Doe vs. ABC Corp"
  filingDate := "2024-03-20"
  nextHearingDate := "2025-10-15"
  orders := [⟨"2024-08-01", "Case listed for final arguments.",
    "https://placehold.co/600x400/0000FF/FFFFFF?text=Mock+Order+PDF"⟩]
  rawResponse := some "<html><body>...mock HTML content from a civil suit...</body></html>"

/-- The `MOCK_DATA` object of `src/unnamed/part_004`. -/
def MOCK_DATA_p4 (key : String) : Option CaseRecord :=
  if key = "criminal-123-2023" then some p4CriminalRecord
  else if key = "civil-456-2024" then some p4CivilRecord
  else none

/-- Lookup performed by the `POST /api/case` handler of `src/server.js`:
the handler builds the composite key and indexes `MOCK_DATA` directly. -/
def serverCaseLookup (b : ReqBody) : Option CaseRecord :=
  MOCK_DATA_server (keyOf b)

/-- The `scrapeCaseData` function of `src/unnamed/part_004` (the 500 ms
`setTimeout` delay and the `console.log` calls have no effect on the value
returned and are not modelled). -/
def scrapeCaseData_p4 (b : ReqBody) : Option CaseRecord :=
  MOCK_DATA_p4 (keyOf b)

/-- List of criminal records in the `MOCK_CASES` table of `src/unnamed/part_003`. -/
def mockCriminalCases : List CaseRecord := [
  ⟨"Criminal Case", "101", "2023", "State vs. A", "2023-01-01", "2024-09-01",
    [⟨"2024-08-01", "Order on bail.",
      "https://placehold.co/600x400/FF0000/FFFFFF?text=Mock+PDF+1"⟩], none⟩,
  ⟨"Criminal Case", "102", "2023", "State vs. B", "2023-02-01", "2024-10-01",
    [⟨"2024-08-05", "Next hearing date set.",
      "https://placehold.co/600x400/FF0000/FFFFFF?text=Mock+PDF+2"⟩], none⟩,
  ⟨"Criminal Case", "103", "2024", "State vs. C", "2024-03-01", "2024-11-01",
    [⟨"2024-07-20", "Final order.",
      "https://placehold.co/600x400/FF0000/FFFFFF?text=Mock+PDF+3"⟩], none⟩,
  ⟨"Criminal Case", "104", "2024", "State vs. D", "2024-04-01", "2024-12-01",
    [⟨"2024-08-10", "Interim order on evidence.",
      "https://placehold.co/600x400/FF0000/FFFFFF?text=Mock+PDF+4"⟩], none⟩,
  ⟨"Criminal Case", "105", "2024", "State vs. E", "2024-05-01", "2025-01-01",
    [⟨"2024-08-15", "Arguments heard.",
      "https://placehold.co/600x400/FF0000/FFFFFF?text=Mock+PDF+5"⟩], none⟩]

/-- List of civil records in the `MOCK_CASES` table of `src/unnamed/part_003`. -/
def mockCivilCases : List CaseRecord := [
  ⟨"Civil Suit", "201", "2022", "Plaintiff F vs. Defendant G", "2022-01-01", "2024-09-02",
    [⟨"2024-08-02", "Case review.",
      "https://placehold.co/600x400/0000FF/FFFFFF?text=Mock+PDF+6"⟩], none⟩,
  ⟨"Civil Suit", "202", "2023", "Plaintiff H vs. Defendant I", "2023-02-02", "2024-10-02",
    [⟨"2024-08-06", "Witness deposition.",
      "https://placehold.co/600x400/0000FF/FFFFFF?text=Mock+PDF+7"⟩], none⟩,
  ⟨"Civil Suit", "203", "2023", "Plaintiff J vs. Defendant K", "2023-03-03", "2024-11-02",
    [⟨"2024-07-21", "Mediation ordered.",
      "https://placehold.co/600x400/0000FF/FFFFFF?text=Mock+PDF+8"⟩], none⟩,
  ⟨"Civil Suit", "204", "2024", "Plaintiff L vs. Defendant M", "2024-04-04", "2024-12-02",
    [⟨"2024-08-11", "Interim relief granted.",
      "https://placehold.co/600x400/0000FF/FFFFFF?text=Mock+PDF+9"⟩], none⟩,
  ⟨"Civil Suit", "205", "2024", "Plaintiff N vs. Defendant O", "2024-05-05", "2025-01-02",
    [⟨"2024-08-16", "Case dismissed.",
      "https://placehold.co/600x400/0000FF/FFFFFF?text=Mock+PDF+10"⟩], none⟩]

/-- List of writ records in the `MOCK_CASES` table of `src/unnamed/part_003`. -/
def mockWritCases : List CaseRecord := [
  ⟨"Writ Petition", "301", "2021", "Petitioner P vs. State", "2021-01-01", "2024-09-03",
    [⟨"2024-08-03", "Notice issued.",
      "https://placehold.co/600x400/008000/FFFFFF?text=Mock+PDF+11"⟩], none⟩,
  ⟨"Writ Petition", "302", "2022", "Petitioner Q vs. Union of India", "2022-02-02", "2024-10-03",
    [⟨"2024-08-07", "Directions for compliance.",
      "https://placehold.co/600x400/008000/FFFFFF?text=Mock+PDF+12"⟩], none⟩,
  ⟨"Writ Petition", "303", "2023", "Petitioner R vs. State", "2023-03-03", "2024-11-03",
    [⟨"2024-07-22", "Interim stay granted.",
      "https://placehold.co/600x400/008000/FFFFFF?text=Mock+PDF+13"⟩], none⟩,
  ⟨"Writ Petition", "304", "2024", "Petitioner S vs. Union of India", "2024-04-04", "2024-12-03",
    [⟨"2024-08-12", "Final arguments heard.",
      "https://placehold.co/600x400/008000/FFFFFF?text=Mock+PDF+14"⟩], none⟩,
  ⟨"Writ Petition", "305", "2024", "Petitioner T vs. State", "2024-05-05", "2025-01-03",
    [⟨"2024-08-17", "Petition dismissed.",
      "https://placehold.co/600x400/008000/FFFFFF?text=Mock+PDF+15"⟩], none⟩]

/-- The `MOCK_CASES` object of `src/unnamed/part_003`, keyed by category. -/
def MOCK_CASES (category : String) : Option (List CaseRecord) :=
  if category = "criminal" then some mockCriminalCases
  else if category = "civil" then some mockCivilCases
  else if category = "writ" then some mockWritCases
  else none

/-- The `scrapeCaseData` function of `src/unnamed/part_003` (category-only
random lookup).  The call `Math.floor(Math.random() * casesForType.length)`
is embedded as the explicit random draw `idx`; the source always produces an
`idx` strictly below the list length, which theorems state as a hypothesis.
An absent `caseType` indexes the object with the text "undefined". -/
def scrapeCaseDataRandom (idx : Nat) (b : ReqBody) : Option CaseRecord :=
  match MOCK_CASES (jsStr b.caseType) with
  | some casesForType => if 0 < casesForType.length then casesForType[idx]? else none
  | none => none

/-- Display case-type carried by every record of a given `MOCK_CASES`
category (read off the table of `src/unnamed/part_003`). -/
def categoryDisplayName (category : String) : String :=
  if category = "criminal" then "Criminal Case"
  else if category = "civil" then "Civil Suit"
  else if category = "writ" then "Writ Petition"
  else ""

/-- Outcome stored in a log entry: either the found record or the error
object `{ message: ... }` built by the handler (the source stores it
JSON-serialized; the embedding keeps it structured). -/
inductive LoggedResponse where
  | record (r : CaseRecord)
  | message (m : String)
deriving Repr, DecidableEq

/-- One element of the in-memory `queryLog` array of `src/server.js`. -/
structure LogEntry where
  timestamp : String
  query : ReqBody
  response : LoggedResponse
deriving Repr, DecidableEq

/-- The `logQueryToDb` function of `src/server.js`: `queryLog.unshift(entry)`
prepends the new entry, so the array is ordered newest first.  The wall-clock
timestamp `new Date().toISOString()` is passed in as `now`. -/
def logQueryToDb (now : String) (q : ReqBody) (resp : LoggedResponse)
    (st : List LogEntry) : List LogEntry :=
  ⟨now, q, resp⟩ :: st

/-- The `GET /api/log` handler of `src/server.js`: it returns the whole
`queryLog` array and leaves it unchanged (result, new state). -/
def apiLogHandler (st : List LogEntry) : List LogEntry × List LogEntry :=
  (st, st)

/-- The `latest_order` object built by the `/search` handler of
`src/unnamed/part_000`. -/
structure OrderLink where
  date : String
  description : String
  link : String
deriving Repr, DecidableEq

/-- A minimal HTTP response body, covering the JSON shapes the handlers
produce: `{success:true, data}`, `{success:false, message}`, `{error}` and
the `/search` success payload `{success:true, case_details, latest_order}`. -/
inductive ApiBody where
  | caseSuccess (data : CaseRecord)
  | caseFailure (message : String)
  | errorBody (error : String)
  | searchSuccess (case_details : List (String × String))
      (latest_order : Option OrderLink)
deriving Repr, DecidableEq

/-- Status code plus body. -/
structure HttpResponse where
  status : Nat
  body : ApiBody
deriving Repr, DecidableEq

/-- The `POST /api/case` handler shared (verbatim, up to the resolver it
calls) by `src/server.js` (lines 80–102) and `src/unnamed/part_004`
(lines 114–126): resolve, log the outcome, answer 200 with
`{success:true, data}` or 404 with
404 with the fixed no-case-found message. -/
def handleApiCase (resolve : ReqBody → Option CaseRecord) (now : String)
    (st : List LogEntry) (b : ReqBody) : List LogEntry × HttpResponse :=
  match resolve b with
  | some caseData =>
      (logQueryToDb now b (.record caseData) st, ⟨200, .caseSuccess caseData⟩)
  | none =>
      (logQueryToDb now b (.message "No case found for the given details.") st,
       ⟨404, .caseFailure "No case found with these details."⟩)

/-- Modelled from the spec: the `POST /api/case` route of the category-random
variant.  `src/unnamed/part_003` is truncated before its API routes, so the
route itself is not under `src/`; §6 of the spec gives the response mapping
(`200 {success:true, data}` on a record, `404 {success:false,
message:"No case found with these details."}` on `NotFound`) and §4.3 the
log append, which is the same shape as the handlers present in `src/`.  The
random draw of the resolver is the explicit `idx` argument. -/
def handleApiCaseRandom (idx : Nat) (now : String) (st : List LogEntry)
    (b : ReqBody) : List LogEntry × HttpResponse :=
  handleApiCase (scrapeCaseDataRandom idx) now st b

/-- The `BASE_URL` constant of `src/unnamed/part_000`. -/
def BASE_URL : String := "https://delhihighcourt.nic.in/"

/-- Embedding of the JavaScript built-in `new URL(link, base).href` for the
cases this code exercises with `base = BASE_URL` (whose path is just `/`):
a link already carrying a scheme separator is returned unchanged, a
root-relative link is joined to the origin of the base, and any other link is
joined to the directory of the base, which for `BASE_URL` is the base itself. -/
def jsURL (link base : String) : String :=
  if jsIncludes link "://" then link
  else if jsStartsWith link "/" then ⟨base.data.dropLast⟩ ++ link
  else base ++ link

/-- Label cleanup the `/search` handler of `src/unnamed/part_000` applies to
the first cell of each `table.grid_new` row:
the text of the cell — trim, then remove with `replace` the
first occurrence of a colon. -/
def cleanLabel (s : String) : String :=
  jsReplaceFirst (jsTrim s) ":" ""

/-- Extraction of `caseDetails` from the `table.grid_new` rows of the result
page (`src/unnamed/part_000`, lines 161–169): every row with exactly two
cells contributes the pair (cleaned label, trimmed value).  The rows are
given as lists of cell texts, as delivered by the DOM library. -/
def parseCaseDetails (rows : List (List String)) : List (String × String) :=
  rows.filterMap fun cells =>
    match cells with
    | [k, v] => some (cleanLabel k, jsTrim v)
    | _ => none

/-- One raw row of the `table.list_box` orders table, as delivered by the
DOM library: the cell texts, and the `href` of the anchor inside the fourth
cell when one exists. -/
structure OrderRow where
  cells : List String
  hrefAt3 : Option String
deriving Repr, DecidableEq

/-- Extraction of `latest_order` (`src/unnamed/part_000`, lines 171–186):
skip the header row, take the first remaining row only, require more than
three cells and an anchor in the fourth cell, then trim the date and
description texts and resolve the link against `BASE_URL`. -/
def parseLatestOrder (rows : List OrderRow) : Option OrderLink :=
  match rows.drop 1 with
  | [] => none
  | row :: _ =>
    if 3 < row.cells.length then
      match row.hrefAt3 with
      | some orderLink =>
        some ⟨jsTrim (row.cells.getD 0 ""), jsTrim (row.cells.getD 1 ""),
          jsURL orderLink BASE_URL⟩
      | none => none
    else none

/-- The request body of `POST /search` of `src/unnamed/part_000`, whose
fields are snake_case; each may be absent. -/
structure SearchBody where
  case_type : Option String
  case_number : Option String
  filing_year : Option String
deriving Repr, DecidableEq

/-- JavaScript falsiness of a possibly-absent string field: `undefined` and
the empty string are falsy, every other string truthy. -/
def falsy : Option String → Bool
  | none => true
  | some s => s == ""

/-- Environment of one `/search` request: everything the handler obtains
from outside — network fetches (where `none` is a thrown network error) and
extraction by the DOM library of attributes and cell texts.  The response to the submitted form may depend on the solved CAPTCHA text. -/
structure LiveEnv where
  searchPage : Option String
  captchaSrc : String → Option String
  solveCaptcha : String → Option String
  submitResult : String → Option String
  gridRows : String → List (List String)
  orderRows : String → List OrderRow

/-- One row of the SQLite `queries` table of `src/unnamed/part_000`, as
inserted by its `logQuery` function. -/
structure QueryRow where
  case_type : String
  case_number : String
  filing_year : String
  raw_response : String
deriving Repr, DecidableEq

/-- Result of one `/search` request: the HTTP response, whether the handler
went past validation into the resolution pipeline, and the `queries` table
contents after the request. -/
structure SearchResult where
  response : HttpResponse
  resolverInvoked : Bool
  log : List QueryRow
deriving Repr, DecidableEq

/-- The `POST /search` handler of `src/unnamed/part_000` (lines 110–201):
validate presence of the three fields, fetch the search page, locate and
solve the CAPTCHA, submit the form, dispatch on the "Invalid Captcha" and
"No Case Found" markers, parse the details table and the latest order row,
log the raw response (only on this parsed path), and answer.  SQLite
`INSERT` appends, hence `st ++ [row]`. -/
def searchHandler (env : LiveEnv) (st : List QueryRow) (b : SearchBody) :
    SearchResult :=
  if falsy b.case_type || falsy b.case_number || falsy b.filing_year then
    ⟨⟨400, .errorBody "Please provide all required fields."⟩, false, st⟩
  else
    match env.searchPage with
    | none =>
      ⟨⟨500, .errorBody "An unexpected error occurred. Please try again later."⟩, true, st⟩
    | some pageHtml =>
      match env.captchaSrc pageHtml with
      | none =>
        ⟨⟨500, .errorBody "Could not find CAPTCHA image on the page."⟩, true, st⟩
      | some captchaImgUrl =>
        match env.solveCaptcha (jsURL captchaImgUrl BASE_URL) with
        | none =>
          ⟨⟨500, .errorBody "Failed to solve CAPTCHA. Please try again."⟩, true, st⟩
        | some captchaText =>
          match env.submitResult captchaText with
          | none =>
            ⟨⟨500, .errorBody "An unexpected error occurred. Please try again later."⟩, true, st⟩
          | some data =>
            if jsIncludes data "Invalid Captcha" then
              ⟨⟨400, .errorBody "Invalid CAPTCHA submitted. Please try again."⟩, true, st⟩
            else if jsIncludes data "No Case Found" then
              ⟨⟨404, .errorBody "No case found with the provided details. Please check and try again."⟩,
               true, st⟩
            else
              ⟨⟨200, .searchSuccess (parseCaseDetails (env.gridRows data))
                  (parseLatestOrder (env.orderRows data))⟩,
               true,
               st ++ [⟨jsStr b.case_type, jsStr b.case_number, jsStr b.filing_year, data⟩]⟩

/-- Projection of the `data.parties` field out of a response body, used to
state end-to-end properties about the parties of the returned record. -/
def respParties : ApiBody → Option String
  | .caseSuccess r => some r.parties
  | _ => none

/-- Repeated application of `logQueryToDb` for a list of
(timestamp, query, outcome) triples, oldest first. -/
def appendMany (items : List (String × ReqBody × LoggedResponse))
    (st : List LogEntry) : List LogEntry :=
  items.foldl (fun acc i => logQueryToDb i.1 i.2.1 i.2.2 acc) st

/-- Modelled from the spec: label cleanup as §4.2 words it for the Live
Fetch result parsing — "trim each label, strip any trailing colon".  This is
the spec-side definition, to be compared with the `cleanLabel` function of the implementation (which removes the first colon instead). -/
def specStripLabel (s : String) : String :=
  let t := jsTrim s
  if t.data.getLast? = some ':' then ⟨t.data.dropLast⟩ else t

/-- Condition under which removing the first colon and removing a trailing
colon coincide: every colon of the string (if any) is its last character. -/
def onlyTrailingColon (s : String) : Bool :=
  ! s.data.dropLast.contains ':'

/-- A URL is absolute when it carries a scheme separator. -/
def isAbsoluteUrl (s : String) : Bool :=
  jsIncludes s "://"

/-- A request environment in which every external interaction fails; enough
to exercise the validation path, which consults none of it. -/
def trivialEnv : LiveEnv :=
  ⟨none, fun _ => none, fun _ => none, fun _ => none, fun _ => [], fun _ => []⟩

/-- A request environment whose page, CAPTCHA and submission all succeed and
whose submission response body is exactly the "No Case Found" marker. -/
def envNoCaseFound : LiveEnv :=
  ⟨some "page", fun _ => some "captcha.jpg", fun _ => some "1234",
   fun _ => some "No Case Found", fun _ => [], fun _ => []⟩

/-- A request environment whose submission response body is exactly the
"Invalid Captcha" marker. -/
def envInvalidCaptcha : LiveEnv :=
  ⟨some "page", fun _ => some "captcha.jpg", fun _ => some "1234",
   fun _ => some "Invalid Captcha", fun _ => [], fun _ => []⟩

/-- A request environment whose submission response body carries both the
"Invalid Captcha" and the "No Case Found" markers. -/
def envBothMarkers : LiveEnv :=
  ⟨some "page", fun _ => some "captcha.jpg", fun _ => some "1234",
   fun _ => some "Invalid Captcha - No Case Found", fun _ => [], fun _ => []⟩

/-! ### Helper lemmas -/

theorem isPrefixOf_self_append (l y : List Char) : l.isPrefixOf (l ++ y) = true := by
  induction l with
  | nil => simp [List.isPrefixOf]
  | cons c rest ih => simp [List.isPrefixOf, ih]

theorem jsIncludesList_append_mid (pat x y : List Char) :
    jsIncludesList pat (x ++ (pat ++ y)) = true := by
  induction x with
  | nil =>
    cases h : pat ++ y with
    | nil =>
      have hp : pat = [] := by
        cases pat with
        | nil => rfl
        | cons a l => simp at h
      simp [hp, jsIncludesList, List.isEmpty]
    | cons c rest =>
      simp only [List.nil_append, h, jsIncludesList]
      rw [← h, isPrefixOf_self_append]
      simp
  | cons c rest ih =>
    show (pat.isPrefixOf _ || jsIncludesList pat (rest ++ (pat ++ y))) = true
    rw [ih, Bool.or_true]

theorem jsIncludes_of_data (s m : String) (x y : List Char)
    (h : s.data = x ++ (m.data ++ y)) : jsIncludes s m = true := by
  unfold jsIncludes
  rw [h]
  exact jsIncludesList_append_mid m.data x y

theorem keyOf_contains_undefined (b : ReqBody)
    (h : b.caseType = none ∨ b.caseNumber = none ∨ b.filingYear = none) :
    jsIncludes (keyOf b) "undefined" = true := by
  rcases h with h | h | h
  · refine jsIncludes_of_data _ _ []
      (("-" ++ jsStr b.caseNumber ++ "-" ++ jsStr b.filingYear).data) ?_
    simp [keyOf, h, jsStr, String.data_append, List.append_assoc]
  · refine jsIncludes_of_data _ _ ((jsStr b.caseType ++ "-").data)
      (("-" ++ jsStr b.filingYear).data) ?_
    simp [keyOf, h, jsStr, String.data_append, List.append_assoc]
  · refine jsIncludes_of_data _ _ ((jsStr b.caseType ++ "-" ++ jsStr b.caseNumber ++ "-").data)
      [] ?_
    simp [keyOf, h, jsStr, String.data_append, List.append_assoc]

theorem MOCK_DATA_server_undefined (k : String)
    (h : jsIncludes k "undefined" = true) : MOCK_DATA_server k = none := by
  by_cases h1 : k = "criminal-123-2023"
  · subst h1; exact absurd h (by decide)
  by_cases h2 : k = "civil-456-2024"
  · subst h2; exact absurd h (by decide)
  simp [MOCK_DATA_server, h1, h2]

theorem MOCK_DATA_p4_undefined (k : String)
    (h : jsIncludes k "undefined" = true) : MOCK_DATA_p4 k = none := by
  by_cases h1 : k = "criminal-123-2023"
  · subst h1; exact absurd h (by decide)
  by_cases h2 : k = "civil-456-2024"
  · subst h2; exact absurd h (by decide)
  simp [MOCK_DATA_p4, h1, h2]

theorem handleApiCase_dichotomy (resolve : ReqBody → Option CaseRecord)
    (now : String) (st : List LogEntry) (b : ReqBody) :
    (∃ r, resolve b = some r ∧
      handleApiCase resolve now st b =
        (logQueryToDb now b (.record r) st, ⟨200, .caseSuccess r⟩)) ∨
    (resolve b = none ∧
      handleApiCase resolve now st b =
        (logQueryToDb now b (.message "No case found for the given details.") st,
         ⟨404, .caseFailure "No case found with these details."⟩)) := by
  cases h : resolve b with
  | some r => exact Or.inl ⟨r, rfl, by simp [handleApiCase, h]⟩
  | none => exact Or.inr ⟨rfl, by simp [handleApiCase, h]⟩

/-- C5: for every query against the exact-key Lookup handlers (`server.js`
and `part_004`), a record from the Resolver yields exactly the response
`200 {success:true, data: record}` and a `NotFound` yields exactly
`404 {success:false, message:"No case found with these details."}`; no other
status or body arises from these two outcomes. -/
theorem apiCaseResponseDichotomy (now : String) (st : List LogEntry) (b : ReqBody) :
    ((∃ r, serverCaseLookup b = some r ∧
        handleApiCase serverCaseLookup now st b =
          (logQueryToDb now b (.record r) st, ⟨200, .caseSuccess r⟩)) ∨
     (serverCaseLookup b = none ∧
        handleApiCase serverCaseLookup now st b =
          (logQueryToDb now b (.message "No case found for the given details.") st,
           ⟨404, .caseFailure "No case found with these details."⟩))) ∧
    ((∃ r, scrapeCaseData_p4 b = some r ∧
        handleApiCase scrapeCaseData_p4 now st b =
          (logQueryToDb now b (.record r) st, ⟨200, .caseSuccess r⟩)) ∨
     (scrapeCaseData_p4 b = none ∧
        handleApiCase scrapeCaseData_p4 now st b =
          (logQueryToDb now b (.message "No case found for the given details.") st,
           ⟨404, .caseFailure "No case found with these details."⟩))) :=
  ⟨handleApiCase_dichotomy serverCaseLookup now st b,
   handleApiCase_dichotomy scrapeCaseData_p4 now st b⟩

/-- C7: the log read endpoint returns the full entry sequence newest first
and does not modify the log: listing right after an append shows the new
entry first (and is exactly the new entry consed on the previous listing);
after any sequence of appends the listing is the reversed append order
followed by the older entries; and reading leaves the state unchanged, so
two consecutive reads return identical sequences. -/
theorem logListNewestFirst (now : String) (q : ReqBody) (resp : LoggedResponse)
    (st : List LogEntry) (items : List (String × ReqBody × LoggedResponse)) :
    (apiLogHandler (logQueryToDb now q resp st)).1.head? = some ⟨now, q, resp⟩ ∧
    (apiLogHandler (logQueryToDb now q resp st)).1 = ⟨now, q, resp⟩ :: (apiLogHandler st).1 ∧
    (apiLogHandler (appendMany items st)).1 =
      (items.map fun i => LogEntry.mk i.1 i.2.1 i.2.2).reverse ++ st ∧
    (apiLogHandler st).2 = st ∧
    (apiLogHandler ((apiLogHandler st).2)).1 = (apiLogHandler st).1 := by
  refine ⟨rfl, rfl, ?_, rfl, rfl⟩
  induction items generalizing st with
  | nil => rfl
  | cons i rest ih =>
    simp only [appendMany, List.foldl_cons, List.map_cons, List.reverse_cons]
    rw [show (List.foldl (fun acc j => logQueryToDb j.1 j.2.1 j.2.2 acc)
          (logQueryToDb i.1 i.2.1 i.2.2 st) rest) =
        appendMany rest (logQueryToDb i.1 i.2.1 i.2.2 st) from rfl]
    rw [ih]
    simp [logQueryToDb, apiLogHandler]

/-- C9: the exact-key Lookup resolvers are deterministic functions of the
query: any two invocations on the same query yield the same outcome, for
both the `part_004` `scrapeCaseData` and the `server.js` lookup. -/
theorem exactLookupDeterministic (b : ReqBody) :
    (∀ o₁ o₂, scrapeCaseData_p4 b = o₁ → scrapeCaseData_p4 b = o₂ → o₁ = o₂) ∧
    (∀ o₁ o₂, serverCaseLookup b = o₁ → serverCaseLookup b = o₂ → o₁ = o₂) :=
  ⟨fun _ _ h₁ h₂ => h₁ ▸ h₂ ▸ rfl, fun _ _ h₁ h₂ => h₁ ▸ h₂ ▸ rfl⟩

theorem exactLookupDeterministic_witness :
    scrapeCaseData_p4 ⟨some "criminal", some "123", some "2023"⟩ = some p4CriminalRecord ∧
    serverCaseLookup ⟨some "criminal", some "123", some "2023"⟩ = some serverCriminalRecord :=
  ⟨(exactLookupDeterministic ⟨some "criminal", some "123", some "2023"⟩).1
      (scrapeCaseData_p4 ⟨some "criminal", some "123", some "2023"⟩)
      (some p4CriminalRecord) rfl (by decide),
   (exactLookupDeterministic ⟨some "criminal", some "123", some "2023"⟩).2
      (serverCaseLookup ⟨some "criminal", some "123", some "2023"⟩)
      (some serverCriminalRecord) rfl (by decide)⟩

/-- C10: in the exact-key Lookup variants, a `POST /api/case` body missing
any of the three fields is not rejected: the composite key is built with the
text "undefined" in place of the missing field, the lookup misses, the
response is `404 {success:false, message:"No case found with these
details."}`, and a log entry recording the query is still appended. -/
theorem absentFieldsNotRejected (now : String) (st : List LogEntry) (b : ReqBody)
    (h : b.caseType = none ∨ b.caseNumber = none ∨ b.filingYear = none) :
    jsIncludes (keyOf b) "undefined" = true ∧
    serverCaseLookup b = none ∧
    scrapeCaseData_p4 b = none ∧
    (handleApiCase serverCaseLookup now st b).2 =
      ⟨404, .caseFailure "No case found with these details."⟩ ∧
    (handleApiCase serverCaseLookup now st b).1 =
      ⟨now, b, .message "No case found for the given details."⟩ :: st ∧
    (handleApiCase scrapeCaseData_p4 now st b).2 =
      ⟨404, .caseFailure "No case found with these details."⟩ ∧
    (handleApiCase scrapeCaseData_p4 now st b).1.length = st.length + 1 := by
  have hu := keyOf_contains_undefined b h
  have hs : serverCaseLookup b = none := MOCK_DATA_server_undefined _ hu
  have hp : scrapeCaseData_p4 b = none := MOCK_DATA_p4_undefined _ hu
  refine ⟨hu, hs, hp, ?_, ?_, ?_, ?_⟩ <;>
    simp [handleApiCase, hs, hp, logQueryToDb]

theorem absentFieldsNotRejected_witness :
    jsIncludes (keyOf ⟨none, some "123", some "2023"⟩) "undefined" = true ∧
    serverCaseLookup ⟨none, some "123", some "2023"⟩ = none ∧
    scrapeCaseData_p4 ⟨none, some "123", some "2023"⟩ = none ∧
    (handleApiCase serverCaseLookup "2025-01-01T00:00:00.000Z" [] ⟨none, some "123", some "2023"⟩).2 =
      ⟨404, .caseFailure "No case found with these details."⟩ ∧
    (handleApiCase serverCaseLookup "2025-01-01T00:00:00.000Z" [] ⟨none, some "123", some "2023"⟩).1 =
      ⟨"2025-01-01T00:00:00.000Z", ⟨none, some "123", some "2023"⟩,
        LoggedResponse.message "No case found for the given details."⟩ :: [] ∧
    (handleApiCase scrapeCaseData_p4 "2025-01-01T00:00:00.000Z" [] ⟨none, some "123", some "2023"⟩).2 =
      ⟨404, .caseFailure "No case found with these details."⟩ ∧
    (handleApiCase scrapeCaseData_p4 "2025-01-01T00:00:00.000Z" [] ⟨none, some "123", some "2023"⟩).1.length =
      List.length ([] : List LogEntry) + 1 :=
  absentFieldsNotRejected "2025-01-01T00:00:00.000Z" [] ⟨none, some "123", some "2023"⟩ (Or.inl rfl)

/-- C1 (amended): the `/search` handler of the Live Fetch variant rejects any
request with an absent or empty field with status 400, body
`{error:"Please provide all required fields."}`, untouched log, and without
entering the resolution pipeline. -/
theorem searchValidationRejects (env : LiveEnv) (st : List QueryRow) (b : SearchBody)
    (h : (falsy b.case_type || falsy b.case_number || falsy b.filing_year) = true) :
    searchHandler env st b =
      ⟨⟨400, .errorBody "Please provide all required fields."⟩, false, st⟩ := by
  simp [searchHandler, h]

theorem searchValidationRejects_witness :
    searchHandler trivialEnv [] ⟨some "", some "1", some "2023"⟩ =
      ⟨⟨400, .errorBody "Please provide all required fields."⟩, false, []⟩ :=
  searchValidationRejects trivialEnv [] ⟨some "", some "1", some "2023"⟩ (by decide)

/-- C1 (counterexample): the exact-key `/api/case` handler of `server.js`
does not validate: with an empty `caseType` it answers 404 (after actually
performing the lookup with key "-1-2023"), not 400. -/
theorem apiCaseEmptyFieldNot400 :
    keyOf ⟨some "", some "1", some "2023"⟩ = "-1-2023" ∧
    (handleApiCase serverCaseLookup "t0" [] ⟨some "", some "1", some "2023"⟩).2.status = 404 ∧
    (handleApiCase serverCaseLookup "t0" [] ⟨some "", some "1", some "2023"⟩).2.status ≠ 400 ∧
    (handleApiCase serverCaseLookup "t0" [] ⟨some "", some "1", some "2023"⟩).2.body ≠
      ApiBody.errorBody "Please provide all required fields." := by
  refine ⟨rfl, by decide, by decide, by decide⟩

theorem mem_mockCriminal_caseType :
    ∀ r ∈ mockCriminalCases, r.caseType = "Criminal Case" := by decide

theorem mem_mockCivil_caseType :
    ∀ r ∈ mockCivilCases, r.caseType = "Civil Suit" := by decide

theorem mem_mockWrit_caseType :
    ∀ r ∈ mockWritCases, r.caseType = "Writ Petition" := by decide

theorem randomLookup_sound (b : ReqBody) (cs : List CaseRecord) (idx : Nat)
    (hm : MOCK_CASES (jsStr b.caseType) = some cs) (hlt : idx < cs.length) :
    scrapeCaseDataRandom idx b = some (cs.get ⟨idx, hlt⟩) := by
  simp only [scrapeCaseDataRandom, hm]
  rw [if_pos (Nat.lt_of_le_of_lt (Nat.zero_le idx) hlt)]
  simp [List.getElem?_eq_getElem hlt, List.get_eq_getElem]

theorem validCategory (c : String) (h : MOCK_CASES c ≠ none) :
    c ∈ ["criminal", "civil", "writ"] := by
  by_cases e₁ : c = "criminal"
  · simp [e₁]
  by_cases e₂ : c = "civil"
  · simp [e₂]
  by_cases e₃ : c = "writ"
  · simp [e₃]
  exact absurd (by simp [MOCK_CASES, e₁, e₂, e₃]) h

theorem displayInjOnValid :
    ∀ c₁ ∈ ["criminal", "civil", "writ"], ∀ c₂ ∈ ["criminal", "civil", "writ"],
      c₁ ≠ c₂ → categoryDisplayName c₁ ≠ categoryDisplayName c₂ := by decide

/-- C3: the category-random Lookup strategy stays in the requested category:
for any query whose `caseType` is a category of the table and any random
draw below the bucket size, the resolver returns a record of that bucket
whose `caseType` is the display name of the category; display names of distinct
valid categories differ (so the record is never of a different category);
and an unknown category always resolves to `NotFound`. -/
theorem categoryLookupStaysInCategory :
    (∀ (b : ReqBody) (cs : List CaseRecord) (idx : Nat),
        MOCK_CASES (jsStr b.caseType) = some cs → idx < cs.length →
        ∃ r, scrapeCaseDataRandom idx b = some r ∧ r ∈ cs ∧
          r.caseType = categoryDisplayName (jsStr b.caseType)) ∧
    (∀ c₁, MOCK_CASES c₁ ≠ none → ∀ c₂, MOCK_CASES c₂ ≠ none → c₁ ≠ c₂ →
        categoryDisplayName c₁ ≠ categoryDisplayName c₂) ∧
    (∀ (b : ReqBody) (idx : Nat), MOCK_CASES (jsStr b.caseType) = none →
        scrapeCaseDataRandom idx b = none) := by
  refine ⟨?_, ?_, ?_⟩
  · intro b cs idx hm hlt
    by_cases e₁ : jsStr b.caseType = "criminal"
    · have hcs : cs = mockCriminalCases := by
        rw [e₁] at hm
        simpa [MOCK_CASES] using hm.symm
      subst hcs
      refine ⟨mockCriminalCases.get ⟨idx, hlt⟩, randomLookup_sound b mockCriminalCases idx hm hlt,
        List.get_mem _ _ _, ?_⟩
      rw [e₁]
      exact (mem_mockCriminal_caseType _ (List.get_mem _ _ _)).trans
        (by decide : ("Criminal Case" : String) = categoryDisplayName "criminal")
    by_cases e₂ : jsStr b.caseType = "civil"
    · have hcs : cs = mockCivilCases := by
        rw [e₂] at hm
        simpa [MOCK_CASES] using hm.symm
      subst hcs
      refine ⟨mockCivilCases.get ⟨idx, hlt⟩, randomLookup_sound b mockCivilCases idx hm hlt,
        List.get_mem _ _ _, ?_⟩
      rw [e₂]
      exact (mem_mockCivil_caseType _ (List.get_mem _ _ _)).trans
        (by decide : ("Civil Suit" : String) = categoryDisplayName "civil")
    by_cases e₃ : jsStr b.caseType = "writ"
    · have hcs : cs = mockWritCases := by
        rw [e₃] at hm
        simpa [MOCK_CASES] using hm.symm
      subst hcs
      refine ⟨mockWritCases.get ⟨idx, hlt⟩, randomLookup_sound b mockWritCases idx hm hlt,
        List.get_mem _ _ _, ?_⟩
      rw [e₃]
      exact (mem_mockWrit_caseType _ (List.get_mem _ _ _)).trans
        (by decide : ("Writ Petition" : String) = categoryDisplayName "writ")
    · rw [MOCK_CASES, if_neg e₁, if_neg e₂, if_neg e₃] at hm
      cases hm
  · intro c₁ h₁ c₂ h₂ hne
    exact displayInjOnValid c₁ (validCategory c₁ h₁) c₂ (validCategory c₂ h₂) hne
  · intro b idx hm
    simp [scrapeCaseDataRandom, hm]

theorem categoryLookupStaysInCategory_witness :
    (∃ r, scrapeCaseDataRandom 2 ⟨some "civil", some "999", some "1900"⟩ = some r ∧
        r ∈ mockCivilCases ∧
        r.caseType = categoryDisplayName (jsStr (some "civil"))) ∧
    categoryDisplayName "criminal" ≠ categoryDisplayName "writ" ∧
    scrapeCaseDataRandom 0 ⟨some "unknown", some "1", some "2023"⟩ = none :=
  ⟨categoryLookupStaysInCategory.1 ⟨some "civil", some "999", some "1900"⟩
      mockCivilCases 2 rfl (by decide),
   categoryLookupStaysInCategory.2.1 "criminal" (by decide) "writ" (by decide) (by decide),
   categoryLookupStaysInCategory.2.2 ⟨some "unknown", some "1", some "2023"⟩ 0 rfl⟩

/-- C4 (counterexample): against the category-random Lookup configuration
whose table holds the exact record (criminal, 101, 2023, "State vs. A"),
posting that query can answer 200 with a different record of the criminal
bucket — here the draw picks index 1 and `data.parties` is "State vs. B". -/
theorem randomLookupParties_cx :
    (handleApiCaseRandom 1 "t0" [] ⟨some "criminal", some "101", some "2023"⟩).2.status = 200 ∧
    respParties (handleApiCaseRandom 1 "t0" [] ⟨some "criminal", some "101", some "2023"⟩).2.body =
      some "State vs. B" ∧
    some "State vs. B" ≠ some "State vs. A" := by decide

/-- C4 (amended): posting `{caseType:"criminal", caseNumber:"101",
filingYear:"2023"}` against the category-random configuration answers 200
with `data` being exactly the record of the criminal bucket the random draw
selects (hence always a criminal record), and `data.parties` is
"State vs. A" if and only if the draw picks the first record. -/
theorem randomLookupCriminal101 (idx : Nat) (now : String) (st : List LogEntry)
    (h : idx < mockCriminalCases.length) :
    (handleApiCaseRandom idx now st ⟨some "criminal", some "101", some "2023"⟩).2.status = 200 ∧
    (handleApiCaseRandom idx now st ⟨some "criminal", some "101", some "2023"⟩).2.body =
      ApiBody.caseSuccess (mockCriminalCases.get ⟨idx, h⟩) ∧
    mockCriminalCases.get ⟨idx, h⟩ ∈ mockCriminalCases ∧
    (respParties (handleApiCaseRandom idx now st
        ⟨some "criminal", some "101", some "2023"⟩).2.body = some "State vs. A" ↔
      idx = 0) := by
  have hr := randomLookup_sound ⟨some "criminal", some "101", some "2023"⟩
    mockCriminalCases idx rfl h
  refine ⟨?_, ?_, List.get_mem _ _ _, ?_⟩
  · simp [handleApiCaseRandom, handleApiCase, hr]
  · simp [handleApiCaseRandom, handleApiCase, hr]
  · have hb : respParties (handleApiCaseRandom idx now st
        ⟨some "criminal", some "101", some "2023"⟩).2.body =
        some (mockCriminalCases.get ⟨idx, h⟩).parties := by
      simp [handleApiCaseRandom, handleApiCase, hr, respParties]
    rw [hb]
    have h5 : idx = 0 ∨ idx = 1 ∨ idx = 2 ∨ idx = 3 ∨ idx = 4 := by
      have hl : mockCriminalCases.length = 5 := rfl
      omega
    rcases h5 with rfl | rfl | rfl | rfl | rfl <;>
      simp [List.get, mockCriminalCases]

theorem randomLookupCriminal101_witness :
    (handleApiCaseRandom 0 "t0" [] ⟨some "criminal", some "101", some "2023"⟩).2.status = 200 ∧
    (handleApiCaseRandom 0 "t0" [] ⟨some "criminal", some "101", some "2023"⟩).2.body =
      ApiBody.caseSuccess (mockCriminalCases.get ⟨0, by decide⟩) ∧
    mockCriminalCases.get ⟨0, by decide⟩ ∈ mockCriminalCases ∧
    (respParties (handleApiCaseRandom 0 "t0" []
        ⟨some "criminal", some "101", some "2023"⟩).2.body = some "State vs. A" ↔
      (0 : Nat) = 0) :=
  randomLookupCriminal101 0 "t0" [] (by decide)

theorem isPrefixOf_append_right (p l y : List Char) (h : p.isPrefixOf l = true) :
    p.isPrefixOf (l ++ y) = true := by
  induction p generalizing l with
  | nil => simp [List.isPrefixOf]
  | cons a p' ih =>
    cases l with
    | nil => simp [List.isPrefixOf] at h
    | cons b l' =>
      simp only [List.isPrefixOf, Bool.and_eq_true] at h ⊢
      exact ⟨h.1, ih l' h.2⟩

theorem jsIncludesList_append_left (pat x y : List Char)
    (h : jsIncludesList pat x = true) : jsIncludesList pat (x ++ y) = true := by
  induction x with
  | nil =>
    simp only [jsIncludesList, List.isEmpty_iff] at h
    subst h
    cases y with
    | nil => rfl
    | cons c rest => simp [jsIncludesList, List.isPrefixOf]
  | cons c rest ih =>
    simp only [jsIncludesList, Bool.or_eq_true] at h
    show (pat.isPrefixOf (c :: (rest ++ y)) || jsIncludesList pat (rest ++ y)) = true
    rcases h with h | h
    · rw [show c :: (rest ++ y) = (c :: rest) ++ y from rfl,
        isPrefixOf_append_right pat (c :: rest) y h]
      simp
    · rw [ih h, Bool.or_true]

theorem jsIncludes_append_left (s t m : String) (h : jsIncludes s m = true) :
    jsIncludes (s ++ t) m = true := by
  unfold jsIncludes at h ⊢
  rw [String.data_append]
  exact jsIncludesList_append_left m.data s.data t.data h

/-- C2 (amended): the exact-key Lookup handlers append exactly one log entry
per resolved request (success or not); the Live Fetch `/search` handler
appends one entry only on the parsed-success outcome (status 200) and none
on any other outcome, including NotFound. -/
theorem logAppendCountPerRequest :
    (∀ (now : String) (st : List LogEntry) (b : ReqBody),
        (handleApiCase serverCaseLookup now st b).1.length = st.length + 1 ∧
        (handleApiCase scrapeCaseData_p4 now st b).1.length = st.length + 1) ∧
    (∀ (env : LiveEnv) (st : List QueryRow) (b : SearchBody),
        (searchHandler env st b).log.length =
          if (searchHandler env st b).response.status = 200 then st.length + 1
          else st.length) := by
  constructor
  · intro now st b
    constructor
    · cases h : serverCaseLookup b <;> simp [handleApiCase, h, logQueryToDb]
    · cases h : scrapeCaseData_p4 b <;> simp [handleApiCase, h, logQueryToDb]
  · intro env st b
    by_cases hv : (falsy b.case_type || falsy b.case_number || falsy b.filing_year) = true
    · simp [searchHandler, hv]
    · cases hp : env.searchPage with
      | none => simp [searchHandler, hv, hp]
      | some page =>
        cases hc : env.captchaSrc page with
        | none => simp [searchHandler, hv, hp, hc]
        | some src =>
          cases hs : env.solveCaptcha (jsURL src BASE_URL) with
          | none => simp [searchHandler, hv, hp, hc, hs]
          | some t =>
            cases hd : env.submitResult t with
            | none => simp [searchHandler, hv, hp, hc, hs, hd]
            | some data =>
              by_cases hic : jsIncludes data "Invalid Captcha" = true
              · simp [searchHandler, hv, hp, hc, hs, hd, hic]
              · by_cases hnc : jsIncludes data "No Case Found" = true
                · simp [searchHandler, hv, hp, hc, hs, hd, hic, hnc]
                · simp [searchHandler, hv, hp, hc, hs, hd, hic, hnc]

/-- C2 (counterexample): a Live Fetch request that resolves to NotFound (the
submission body carries the "No Case Found" marker) sends the 404 response
without appending any log entry: the log length does not increase by one. -/
theorem liveFetchNotFoundLogsNothing :
    (searchHandler envNoCaseFound [] ⟨some "criminal", some "123", some "2023"⟩).response.status = 404 ∧
    (searchHandler envNoCaseFound [] ⟨some "criminal", some "123", some "2023"⟩).resolverInvoked = true ∧
    (searchHandler envNoCaseFound [] ⟨some "criminal", some "123", some "2023"⟩).log.length = 0 := by
  decide

/-- C6 (amended): once a Live Fetch request reaches form submission, a
response body containing the "Invalid Captcha" marker yields the
retry-eligible CAPTCHA failure (status 400 with its own message), a body
containing "No Case Found" without the "Invalid Captcha" marker yields
NotFound (status 404), and the two responses are distinct. -/
theorem markerDispatch (env : LiveEnv) (st : List QueryRow) (b : SearchBody)
    (p c t d : String)
    (hv : (falsy b.case_type || falsy b.case_number || falsy b.filing_year) = false)
    (hp : env.searchPage = some p)
    (hc : env.captchaSrc p = some c)
    (ht : env.solveCaptcha (jsURL c BASE_URL) = some t)
    (hd : env.submitResult t = some d) :
    (jsIncludes d "Invalid Captcha" = true →
      searchHandler env st b =
        ⟨⟨400, .errorBody "Invalid CAPTCHA submitted. Please try again."⟩, true, st⟩) ∧
    (jsIncludes d "Invalid Captcha" = false → jsIncludes d "No Case Found" = true →
      searchHandler env st b =
        ⟨⟨404, .errorBody "No case found with the provided details. Please check and try again."⟩,
         true, st⟩) ∧
    (⟨400, .errorBody "Invalid CAPTCHA submitted. Please try again."⟩ : HttpResponse) ≠
      ⟨404, .errorBody "No case found with the provided details. Please check and try again."⟩ := by
  refine ⟨?_, ?_, by decide⟩
  · intro hic
    simp [searchHandler, hv, hp, hc, ht, hd, hic]
  · intro hic hnc
    simp [searchHandler, hv, hp, hc, ht, hd, hic, hnc]

theorem markerDispatch_witness :
    searchHandler envInvalidCaptcha [] ⟨some "W.P.(C)", some "1", some "2023"⟩ =
      ⟨⟨400, .errorBody "Invalid CAPTCHA submitted. Please try again."⟩, true, []⟩ :=
  (markerDispatch envInvalidCaptcha [] ⟨some "W.P.(C)", some "1", some "2023"⟩
    "page" "captcha.jpg" "1234" "Invalid Captcha"
    (by decide) rfl rfl rfl rfl).1 (by decide)

/-- C6 (counterexample): a submission response body containing both markers
is reported as the CAPTCHA failure (status 400), not as NotFound, although
it contains the "No Case Found" marker — the second implication of the claim
fails as literally stated. -/
theorem bothMarkersDispatch_cx :
    jsIncludes "Invalid Captcha - No Case Found" "No Case Found" = true ∧
    (searchHandler envBothMarkers [] ⟨some "criminal", some "123", some "2023"⟩).response.status = 400 ∧
    (searchHandler envBothMarkers [] ⟨some "criminal", some "123", some "2023"⟩).response ≠
      ⟨404, .errorBody "No case found with the provided details. Please check and try again."⟩ := by
  decide

theorem containsAppendChar (l m : List Char) (a : Char) :
    (l ++ m).contains a = (l.contains a || m.contains a) := by
  induction l with
  | nil => simp [List.contains]
  | cons c rest ih =>
    simp only [List.cons_append]
    show (a == c || (rest ++ m).elem a) = ((a == c || rest.elem a) || m.elem a)
    rw [show (rest ++ m).elem a = (rest.contains a || m.contains a) from ih]
    simp [List.contains, Bool.or_assoc]

theorem replaceFirstNoColon (l : List Char) (h : l.contains ':' = false) :
    replaceFirstList [':'] [] l = l := by
  induction l with
  | nil => rfl
  | cons c rest ih =>
    have h' : (':' == c || List.elem ':' rest) = false := h
    have hc : (':' == c) = false := by
      rcases h0 : (':' == c) with _ | _
      · rfl
      · rw [h0, Bool.true_or] at h'
        cases h'
    rw [hc, Bool.false_or] at h'
    show (if [':'].isPrefixOf (c :: rest) then _ else _) = _
    rw [if_neg (by simp [List.isPrefixOf, hc])]
    exact congrArg (List.cons c) (ih h')

theorem replaceFirstSnocColon (u : List Char) (h : u.contains ':' = false) :
    replaceFirstList [':'] [] (u ++ [':']) = u := by
  induction u with
  | nil => rfl
  | cons c rest ih =>
    have h' : (':' == c || List.elem ':' rest) = false := h
    have hc : (':' == c) = false := by
      rcases h0 : (':' == c) with _ | _
      · rfl
      · rw [h0, Bool.true_or] at h'
        cases h'
    rw [hc, Bool.false_or] at h'
    show (if [':'].isPrefixOf (c :: (rest ++ [':'])) then _ else _) = _
    rw [if_neg (by simp [List.isPrefixOf, hc])]
    exact congrArg (List.cons c) (ih h')

theorem cleanLabel_eq_specStrip (s : String)
    (h : onlyTrailingColon (jsTrim s) = true) :
    cleanLabel s = specStripLabel s := by
  have hfree : (jsTrim s).data.dropLast.contains ':' = false := by
    have h' : (! (jsTrim s).data.dropLast.contains ':') = true := h
    rcases h0 : (jsTrim s).data.dropLast.contains ':' with _ | _
    · rfl
    · rw [h0] at h'
      cases h'
  rcases List.eq_nil_or_concat (jsTrim s).data with hn | ⟨u, a, hu⟩
  · have he : jsTrim s = "" := String.ext (by rw [hn])
    unfold cleanLabel specStripLabel
    rw [he]
    decide
  · rw [List.concat_eq_append] at hu
    by_cases ha : a = ':'
    · subst ha
      have hufree : u.contains ':' = false := by
        rw [hu, List.dropLast_concat] at hfree
        exact hfree
      unfold cleanLabel jsReplaceFirst specStripLabel
      rw [show (":" : String).data = [':'] from rfl, show ("" : String).data = [] from rfl]
      show (⟨replaceFirstList [':'] [] (jsTrim s).data⟩ : String) =
        if (jsTrim s).data.getLast? = some ':' then ⟨(jsTrim s).data.dropLast⟩ else jsTrim s
      rw [hu, replaceFirstSnocColon u hufree, List.getLast?_concat, if_pos rfl,
        List.dropLast_concat]
    · have hfreeAll : (jsTrim s).data.contains ':' = false := by
        rw [hu, containsAppendChar]
        rw [hu, List.dropLast_concat] at hfree
        have hone : List.contains [a] ':' = false := by
          have hba : (':' == a) = false := by
            rcases h0 : (':' == a) with _ | _
            · rfl
            · exact absurd (beq_iff_eq.mp h0).symm ha
          have : List.contains [a] ':' = (':' == a || List.elem ':' []) := rfl
          rw [this, hba]
          rfl
        rw [hfree, hone]
        rfl
      have hlast : (jsTrim s).data.getLast? ≠ some ':' := by
        rw [hu, List.getLast?_concat]
        intro e
        exact ha (Option.some.inj e)
      unfold cleanLabel jsReplaceFirst specStripLabel
      rw [show (":" : String).data = [':'] from rfl, show ("" : String).data = [] from rfl]
      show (⟨replaceFirstList [':'] [] (jsTrim s).data⟩ : String) =
        if (jsTrim s).data.getLast? = some ':' then ⟨(jsTrim s).data.dropLast⟩ else jsTrim s
      rw [replaceFirstNoColon _ hfreeAll, if_neg hlast]

/-- C8 (amended): the Live Fetch result parsing trims every label and
removes its first colon (for a label whose only colon is trailing this is
exactly "trim and strip the trailing colon"; an interior colon is removed
instead, see the counterexample), trims every value, and resolves the
link of the latest order row against the base URL, always producing an absolute
URL. -/
theorem parseDetailsCleanup :
    (∀ (rows : List (List String)) (k v : String),
        [k, v] ∈ rows → (cleanLabel k, jsTrim v) ∈ parseCaseDetails rows) ∧
    (∀ s, onlyTrailingColon (jsTrim s) = true → cleanLabel s = specStripLabel s) ∧
    (∀ href, isAbsoluteUrl (jsURL href BASE_URL) = true) ∧
    (∀ (rows : List OrderRow) (o : OrderLink),
        parseLatestOrder rows = some o → isAbsoluteUrl o.link = true) := by
  have absURL : ∀ href, isAbsoluteUrl (jsURL href BASE_URL) = true := by
    intro href
    unfold jsURL isAbsoluteUrl
    by_cases h1 : jsIncludes href "://" = true
    · rw [if_pos h1]
      exact h1
    · rw [if_neg h1]
      by_cases h2 : jsStartsWith href "/" = true
      · rw [if_pos h2]
        exact jsIncludes_append_left _ href "://" (by decide)
      · rw [if_neg h2]
        exact jsIncludes_append_left BASE_URL href "://" (by decide)
  refine ⟨?_, cleanLabel_eq_specStrip, absURL, ?_⟩
  · intro rows k v hm
    exact List.mem_filterMap.mpr ⟨[k, v], hm, rfl⟩
  · intro rows o h
    unfold parseLatestOrder at h
    cases hd : rows.drop 1 with
    | nil => rw [hd] at h; cases h
    | cons row rest =>
      rw [hd] at h
      have h2 : (if 3 < row.cells.length then
          (match row.hrefAt3 with
           | some orderLink =>
             some (⟨jsTrim (row.cells.getD 0 ""), jsTrim (row.cells.getD 1 ""),
               jsURL orderLink BASE_URL⟩ : OrderLink)
           | none => none)
          else none) = some o := h
      by_cases hlen : 3 < row.cells.length
      · rw [if_pos hlen] at h2
        cases hrow : row.hrefAt3 with
        | none => rw [hrow] at h2; cases h2
        | some href =>
          rw [hrow] at h2
          have e := Option.some.inj h2
          rw [← e]
          exact absURL href
      · rw [if_neg hlen] at h2
        cases h2

theorem parseDetailsCleanup_witness :
    (cleanLabel " Case Number: ", jsTrim " 123 ") ∈
      parseCaseDetails [[" Case Number: ", " 123 "]] ∧
    cleanLabel " Case Number: " = specStripLabel " Case Number: " ∧
    isAbsoluteUrl (jsURL "orders/order1.pdf" BASE_URL) = true ∧
    isAbsoluteUrl
      (OrderLink.link ⟨"2024-07-28", "Final order",
        "https://delhihighcourt.nic.in/orders/order1.pdf"⟩) = true :=
  ⟨parseDetailsCleanup.1 [[" Case Number: ", " 123 "]] " Case Number: " " 123 "
      (by simp),
   parseDetailsCleanup.2.1 " Case Number: " (by decide),
   parseDetailsCleanup.2.2.1 "orders/order1.pdf",
   parseDetailsCleanup.2.2.2
     [⟨["header"], none⟩, ⟨["2024-07-28 ", " Final order ", "x", "y"], some "orders/order1.pdf"⟩]
     ⟨"2024-07-28", "Final order",
       "https://delhihighcourt.nic.in/orders/order1.pdf"⟩ (by decide)⟩

/-- C8 (counterexample): on the label " A:B: " the code removes the interior
colon and keeps the trailing one, while the trailing-colon stripping of the claim
would give "A:B" — so "stripped of its trailing colon" is false as stated. -/
theorem labelFirstColon_cx :
    parseCaseDetails [[" A:B: ", " v "]] = [("AB:", "v")] ∧
    specStripLabel " A:B: " = "A:B" ∧
    ("AB:" : String) ≠ "A:B" := by decide
